import Mathlib

/-!
Shallow embedding of the NDAX order-book data source
(`ndax_api_order_book_data_source.py`, with constants from
`ndax_constants.py`), together with proofs about the properties of the
instrument directory, the snapshot fetcher, the diff listener and the
retry loops.

Python-level effects are made explicit: HTTP calls become explicit
response values passed as arguments, exceptions become `Except` results,
and the class-level mutable `_trading_pair_id_map` becomes explicit
state passed in and returned.
-/

namespace Ndax

/-- Embedding of Python exceptions that the modelled code can raise. -/
inductive PyError where
  | keyError (key : String)
  | ioError (msg : String)
  | valueError (msg : String)
  | unboundLocalError (name : String)
  | networkError
  | cancelled
deriving Repr, DecidableEq

instance {ε α : Type} [DecidableEq ε] [DecidableEq α] : DecidableEq (Except ε α) := by
  intro a b
  cases a with
  | error e =>
      cases b with
      | error f =>
          exact decidable_of_iff (e = f)
            ⟨by rintro rfl; rfl, by intro h; injection h⟩
      | ok y => exact isFalse (by intro h; exact Except.noConfusion h)
  | ok x =>
      cases b with
      | error f => exact isFalse (by intro h; exact Except.noConfusion h)
      | ok y =>
          exact decidable_of_iff (x = y)
            ⟨by rintro rfl; rfl, by intro h; injection h⟩

/-- From `ndax_constants.py`: `WS_ORDER_BOOK_CHANNEL = "SubscribeLevel2"`. -/
def WS_ORDER_BOOK_CHANNEL : String := "SubscribeLevel2"

/-- From `ndax_constants.py`: `WS_ORDER_BOOK_L2_UPDATE_EVENT = "Level2UpdateEvent"`. -/
def WS_ORDER_BOOK_L2_UPDATE_EVENT : String := "Level2UpdateEvent"

/-- From `ndax_constants.py`: `ORDER_BOOK_URL = "GetL2Snapshot"`. -/
def ORDER_BOOK_URL : String := "GetL2Snapshot"

/-- One instrument record of the `GetInstruments` (MARKETS_URL) response body,
with the three fields `init_trading_pair_ids` reads. -/
structure Instrument where
  product1Symbol : String
  product2Symbol : String
  instrumentId : Int
deriving Repr, DecidableEq

/-- Result of one `aiohttp` request: either a response with a status code and
a parsed JSON body, or the request itself raised (connection refused, reset,
timeout, ...). -/
inductive HttpResult (α : Type) where
  | response (status : Nat) (body : α)
  | networkFailure
deriving Repr, DecidableEq

/-- The class-level cache `_trading_pair_id_map : Dict[str, int]`,
as an association list with Python-dict key semantics. -/
abbrev TradingPairMap : Type := List (String × Int)

/-- Python-dict insertion (`results.update({key: value})`): overwrite the
value if the key is present, otherwise append the binding. -/
def dictInsert (m : TradingPairMap) (key : String) (value : Int) : TradingPairMap :=
  if m.any (fun p => p.1 = key) then
    m.map (fun p => if p.1 = key then (p.1, value) else p)
  else
    m ++ [(key, value)]

/-- Python-dict lookup as an `Option` (`m.get(key)`). -/
def dictGet (m : TradingPairMap) (key : String) : Option Int :=
  (m.find? (fun p => p.1 = key)).map (fun p => p.2)

/-- The key built at line 63 of the source:
`f"{instrument['Product1Symbol']}-{instrument['Product2Symbol']}"`. -/
def instrumentKey (i : Instrument) : String :=
  i.product1Symbol ++ "-" ++ i.product2Symbol

/-- Embedding of `NdaxAPIOrderBookDataSource.init_trading_pair_ids`.

The Python method (lines 46-65) first calls `cls._trading_pair_id_map.clear()`
(emptying the cached dict in place), builds a fresh `results` dict, issues the
`GetInstruments` request, populates `results` only when the status is 200, and
finally rebinds `cls._trading_pair_id_map = results`.

The argument is the cached map before the call (unused after the clear), the
`HttpResult` is the outcome of the GET; the result is the method's outcome
(a raised `aiohttp` error propagates uncaught) paired with the cached map
after the call. When the request raises, only the in-place `clear()` has run,
so the cache is the emptied original dict. -/
def init_trading_pair_ids (_oldMap : TradingPairMap)
    (resp : HttpResult (List Instrument)) :
    Except PyError Unit × TradingPairMap :=
  match resp with
  | .networkFailure => (.error .networkError, [])
  | .response status body =>
      let results : TradingPairMap :=
        if status = 200 then
          body.foldl (fun acc i => dictInsert acc (instrumentKey i) i.instrumentId) []
        else []
      (.ok (), results)

/-- Embedding of the lookup `cls._trading_pair_id_map[trading_pair]`
(used at lines 87 and 129): a Python dict subscript raises `KeyError`
on a missing key.  This is the directory's `resolve` operation; it is a
pure function of the cached map and performs no I/O. -/
def resolve (m : TradingPairMap) (trading_pair : String) : Except PyError Int :=
  match dictGet m trading_pair with
  | some instrumentId => .ok instrumentId
  | none => .error (.keyError trading_pair)

/-- A directory refresh that does not succeed: either the request raised,
or the response status was not 200. -/
def refreshNotSuccessful : HttpResult (List Instrument) → Prop
  | .networkFailure => True
  | .response status _ => status ≠ 200

instance (resp : HttpResult (List Instrument)) :
    Decidable (refreshNotSuccessful resp) := by
  cases resp <;> simp [refreshNotSuccessful] <;> infer_instance

/-- Modelled from the spec: `NdaxOrderBookEntry` (PriceLevelEntry), defined in
`ndax_order_book_message.py` which is not among the provided sources.  The
spec describes one row of book depth as
`{ makerSideFlag, price, quantity, lastUpdateTimestamp }`; the data-source
code reads the update timestamp through the field name `actionDateTime` and
the side through `side`. -/
structure NdaxOrderBookEntry where
  side : Nat
  price : Int
  quantity : Int
  actionDateTime : Nat
deriving Repr, DecidableEq

/-- The two message classifications of the spec's `OrderBookMessage`. -/
inductive OrderBookMessageType where
  | snapshot
  | diff
deriving Repr, DecidableEq

/-- Modelled from the spec: `OrderBookMessage` — an envelope around a batch
of entries, tagged `Snapshot` or `Diff`, carrying an `updateId`. -/
structure OrderBookMessage where
  msgType : OrderBookMessageType
  updateId : Nat
  entries : List NdaxOrderBookEntry
deriving Repr, DecidableEq

/-- Modelled from the spec: `NdaxOrderBook.snapshot_message_from_exchange`
(in `ndax_order_book.py`, not among the provided sources) builds a
Snapshot-classified message from the decoded entries, with `updateId` the
timestamp the caller passes. -/
def snapshot_message_from_exchange (entries : List NdaxOrderBookEntry)
    (timestamp : Nat) : OrderBookMessage :=
  ⟨.snapshot, timestamp, entries⟩

/-- Modelled from the spec: `NdaxOrderBook.diff_message_from_exchange`
(in `ndax_order_book.py`, not among the provided sources) builds a
Diff-classified message from the decoded entries, with `updateId` the
timestamp the caller passes. -/
def diff_message_from_exchange (entries : List NdaxOrderBookEntry)
    (timestamp : Nat) : OrderBookMessage :=
  ⟨.diff, timestamp, entries⟩

/-- One inbound websocket frame after JSON decoding: the event name `n` and
the nested payload `o` decoded into entry records (line 217-224 of the
source decodes `msg["o"]` and builds `NdaxOrderBookEntry(*entry)` rows). -/
structure WsFrame where
  n : String
  o : List NdaxOrderBookEntry
deriving Repr, DecidableEq

/-- Python's built-in `max` on a list: raises
`ValueError: max() arg is an empty sequence` on the empty list. -/
def pyMax : List Nat → Except PyError Nat
  | [] => .error (.valueError "max() arg is an empty sequence")
  | x :: xs => .ok (xs.foldl Nat.max x)

/-- Embedding of the body of the `async for raw_msg in ws_adapter.iter_messages()`
loop of `listen_for_order_book_diffs` (lines 216-236): frames whose event
name `n` is neither `WS_ORDER_BOOK_CHANNEL` nor
`WS_ORDER_BOOK_L2_UPDATE_EVENT` are skipped (`continue`, result `none`);
otherwise `msg_timestamp = max([e.actionDateTime for e in msg_data])` is
computed and the frame is classified by event name into a Snapshot or a
Diff message, which is put on the output queue (result `some`). -/
def process_diff_frame (msg : WsFrame) : Except PyError (Option OrderBookMessage) :=
  if msg.n = WS_ORDER_BOOK_CHANNEL ∨ msg.n = WS_ORDER_BOOK_L2_UPDATE_EVENT then
    match pyMax (msg.o.map (fun e => e.actionDateTime)) with
    | .error e => .error e
    | .ok ts =>
        if msg.n = WS_ORDER_BOOK_CHANNEL then
          .ok (some (snapshot_message_from_exchange msg.o ts))
        else if msg.n = WS_ORDER_BOOK_L2_UPDATE_EVENT then
          .ok (some (diff_message_from_exchange msg.o ts))
        else
          .ok none
  else
    .ok none

/-- The `IOError` message built at lines 135-138 of the source:
`f"Error fetching OrderBook for {trading_pair} at {CONSTANTS.ORDER_BOOK_URL}. "`
`f"HTTP {response.status}. Response: {await response.json()}"`. -/
def orderBookErrorMessage (trading_pair : String) (status : Nat)
    (respBody : String) : String :=
  "Error fetching OrderBook for " ++ trading_pair ++ " at " ++ ORDER_BOOK_URL
    ++ ". HTTP " ++ toString status ++ ". Response: " ++ respBody

/-- Embedding of `NdaxAPIOrderBookDataSource.get_order_book_data`
(lines 116-142) after the `init_trading_pair_ids` refresh: `idMap` is the
cached map left by that refresh; `cls._trading_pair_id_map[trading_pair]`
raises `KeyError` for an untracked pair; the `GetL2Snapshot` response is a
status plus (on the error path) the raw JSON body used in the message and
(on the success path) the rows decoded into `NdaxOrderBookEntry` records;
a non-200 status raises `IOError` with the diagnostic message, otherwise
the decoded entries are returned (as the `{"data": ...}` payload). -/
def get_order_book_data (idMap : TradingPairMap) (trading_pair : String)
    (status : Nat) (respBody : String) (entries : List NdaxOrderBookEntry) :
    Except PyError (List NdaxOrderBookEntry) :=
  match dictGet idMap trading_pair with
  | none => .error (.keyError trading_pair)
  | some _ =>
      if status ≠ 200 then
        .error (.ioError (orderBookErrorMessage trading_pair status respBody))
      else
        .ok entries

/-- Outcome of processing one trading pair inside the snapshot loop's
`for trading_pair in self._trading_pairs` body (lines 166-188): the fetch
and emit succeeded, raised a non-cancellation exception, or raised
`asyncio.CancelledError`. -/
inductive PairOutcome where
  | ok
  | exn
  | cancelled
deriving Repr, DecidableEq

/-- Observable action of one per-pair step of the snapshot loop: either the
snapshot message for the pair is put on the output queue, or the failure is
logged and followed by a sleep of the given number of seconds. -/
inductive LoopAction where
  | emit (trading_pair : String)
  | logAndSleep (seconds : Nat)
deriving Repr, DecidableEq

/-- The action the snapshot loop body performs for one pair: emit on
success, log-and-sleep-5 on a caught exception (lines 178-188). -/
def pairAction (x : String × PairOutcome) : LoopAction :=
  match x.2 with
  | .ok => .emit x.1
  | _ => .logAndSleep 5

/-- Embedding of one full pass of the snapshot loop's inner `for` loop over
the tracked pairs (lines 165-188), given each pair's outcome: the per-pair
`try` emits on success and catches every non-cancellation exception
(logging and sleeping 5 seconds, then continuing with the next pair), while
`asyncio.CancelledError` is re-raised and aborts the pass. -/
def snapshot_cycle :
    List (String × PairOutcome) → Except PyError (List LoopAction)
  | [] => .ok []
  | (pair, outcome) :: rest =>
      match outcome with
      | .cancelled => .error .cancelled
      | .ok => (snapshot_cycle rest).map (fun tr => .emit pair :: tr)
      | .exn => (snapshot_cycle rest).map (fun tr => .logAndSleep 5 :: tr)

/-- Result of one iteration of a retry loop: the iteration's exception
escapes the loop (after the handler slept the given seconds), or the loop
continues with the next iteration after the given sleep. -/
inductive LoopStepResult where
  | propagate (sleptSeconds : Nat) (e : PyError)
  | continueAfter (sleptSeconds : Nat)
deriving Repr, DecidableEq

/-- Outcome of the body of one iteration of the outer `while True` of
`listen_for_order_book_snapshots` (lines 163-198). -/
inductive SnapshotIterResult where
  | completed
  | cancelled
  | exn
deriving Repr, DecidableEq

/-- Embedding of the outer exception policy of
`listen_for_order_book_snapshots` (lines 193-198): a completed body already
slept until the next hour boundary (`hourDelta` seconds) inside the `try`;
`asyncio.CancelledError` is re-raised immediately; every other exception is
caught, logged, and followed by a 5-second sleep before the loop
continues. -/
def snapshot_loop_step (hourDelta : Nat) : SnapshotIterResult → LoopStepResult
  | .completed => .continueAfter hourDelta
  | .cancelled => .propagate 0 .cancelled
  | .exn => .continueAfter 5

/-- Outcome of the body of one iteration of the `while True` of
`listen_for_order_book_diffs` (lines 204-249). -/
inductive DiffIterEvent where
  | connectFail
  | cancelledDuringConnect
  | streamEnded
  | bodyError
  | cancelledInBody
deriving Repr, DecidableEq

/-- Embedding of one iteration of `listen_for_order_book_diffs`' `while
True` body with its `try/except/finally` (lines 204-249).  `wsBound` records
whether the local variable `ws` has ever been bound by a successful
`websockets.connect` (it persists across iterations of the Python `while`).

Per Python semantics: `asyncio.CancelledError` is re-raised by its handler;
any other exception is caught, logged and followed by `asyncio.sleep(30.0)`;
the `finally` block then runs `await ws.close()` — if `ws` was never bound,
that expression raises `UnboundLocalError`, which replaces any pending
exception and escapes the `while` loop (the loop has no handler around the
`try` statement).  A cleanly ended message stream completes the body and the
loop reconnects immediately. -/
def diff_loop_step (wsBound : Bool) : DiffIterEvent → LoopStepResult × Bool
  | .connectFail =>
      if wsBound then (.continueAfter 30, wsBound)
      else (.propagate 30 (.unboundLocalError "ws"), wsBound)
  | .cancelledDuringConnect =>
      if wsBound then (.propagate 0 .cancelled, wsBound)
      else (.propagate 0 (.unboundLocalError "ws"), wsBound)
  | .streamEnded => (.continueAfter 0, true)
  | .bodyError => (.continueAfter 30, true)
  | .cancelledInBody => (.propagate 0 .cancelled, true)

/-- Modelled from the spec: `OrderBookState` — two price-ordered maps from
price to aggregate quantity (bids descending, asks ascending) and the
current `updateId`.  The state-application code lives in the shared
order-book classes, not among the provided sources. -/
structure OrderBookState where
  bids : List (Int × Int)
  asks : List (Int × Int)
  updateId : Nat
deriving Repr, DecidableEq

/-- Insert `price ↦ qty` into a price-ordered side map, replacing the level
if the price is present; `bidSide` selects descending (bids) versus
ascending (asks) order. -/
def sortedUpsert (bidSide : Bool) :
    List (Int × Int) → Int → Int → List (Int × Int)
  | [], price, qty => [(price, qty)]
  | (p, q) :: rest, price, qty =>
      if p = price then (price, qty) :: rest
      else if (if bidSide then p < price else price < p) then
        (price, qty) :: (p, q) :: rest
      else
        (p, q) :: sortedUpsert bidSide rest price qty

/-- Modelled from the spec: one entry of a Diff — `quantity > 0` upserts the
level, `quantity ≤ 0` removes the price from the side map if present. -/
def upsertOrDelete (bidSide : Bool) (m : List (Int × Int))
    (price qty : Int) : List (Int × Int) :=
  if 0 < qty then sortedUpsert bidSide m price qty
  else m.filter (fun lvl => lvl.1 ≠ price)

/-- Apply one diff entry to the side selected by the entry's side flag
(0 = bid, otherwise ask). -/
def applyDiffEntry (st : OrderBookState) (e : NdaxOrderBookEntry) :
    OrderBookState :=
  if e.side = 0 then
    { st with bids := upsertOrDelete true st.bids e.price e.quantity }
  else
    { st with asks := upsertOrDelete false st.asks e.price e.quantity }

/-- Modelled from the spec: `applyDiff(msg)` — reject (no-op, log) if
`msg.updateId < state.updateId`; otherwise apply every entry in order and
then set `state.updateId = msg.updateId`. -/
def applyDiff (st : OrderBookState) (msg : OrderBookMessage) : OrderBookState :=
  if msg.updateId < st.updateId then st
  else
    { msg.entries.foldl applyDiffEntry st with updateId := msg.updateId }

/-- Claim C1 is FALSE on the code: after a successful refresh caches
`BTC-CAD ↦ 1`, a second refresh answered with HTTP 500 leaves the pair
unresolvable — `init_trading_pair_ids` clears the cache up front and
installs the empty `results` dict, instead of keeping the old mapping. -/
theorem C1_counterexample :
    dictGet (init_trading_pair_ids []
        (HttpResult.response 200 [⟨"BTC", "CAD", 1⟩])).2 "BTC-CAD" = some 1
    ∧ dictGet (init_trading_pair_ids
        (init_trading_pair_ids []
          (HttpResult.response 200 [⟨"BTC", "CAD", 1⟩])).2
        (HttpResult.response 500 [])).2 "BTC-CAD" = none := by
  constructor <;> decide

/-- Claim C1, amended: a directory refresh that fails or receives a
non-success response leaves the cache EMPTY, regardless of what was cached
before — the map is cleared at the start of the refresh and, on a
non-success response, replaced by the empty `results` dict; every pair
resolvable before the failed refresh becomes unresolvable. -/
theorem C1_amended (oldMap : TradingPairMap)
    (resp : HttpResult (List Instrument)) (h : refreshNotSuccessful resp) :
    (init_trading_pair_ids oldMap resp).2 = []
    ∧ ∀ pair : String,
        (resolve (init_trading_pair_ids oldMap resp).2 pair).isOk = false := by
  have hmap : (init_trading_pair_ids oldMap resp).2 = [] := by
    cases resp with
    | networkFailure => rfl
    | response status body =>
        simp only [refreshNotSuccessful] at h
        simp [init_trading_pair_ids, h]
  refine ⟨hmap, fun pair => ?_⟩
  rw [hmap]
  rfl

/-- Witness for `C1_amended` at a concrete failed refresh. -/
theorem C1_amended_witness :
    refreshNotSuccessful (HttpResult.response 500 ([] : List Instrument))
    ∧ ((init_trading_pair_ids [("BTC-CAD", 1)]
          (HttpResult.response 500 [])).2 = []
        ∧ ∀ pair : String,
            (resolve (init_trading_pair_ids [("BTC-CAD", 1)]
              (HttpResult.response 500 [])).2 pair).isOk = false) :=
  ⟨by decide, C1_amended [("BTC-CAD", 1)] (HttpResult.response 500 []) (by decide)⟩

/-- Claim C3 is FALSE on the code: a refresh answered with HTTP 404
completes successfully (`Except.ok`) — the `if response.status == 200`
guard merely skips the body parse, no exception is raised. -/
theorem C3_counterexample :
    (init_trading_pair_ids [] (HttpResult.response 404 [])).1 = Except.ok ()
    ∧ (404 : Nat) ≠ 200 := by
  constructor
  · rfl
  · decide

/-- Claim C3, amended: a refresh whose HTTP request itself raises propagates
the network error, but a refresh that receives a non-200 response completes
successfully and silently leaves the cached mapping empty. -/
theorem C3_amended (oldMap : TradingPairMap) (status : Nat)
    (body : List Instrument) (h : status ≠ 200) :
    (init_trading_pair_ids oldMap (HttpResult.response status body)).1
        = Except.ok ()
    ∧ (init_trading_pair_ids oldMap (HttpResult.response status body)).2 = []
    ∧ (init_trading_pair_ids oldMap HttpResult.networkFailure).1
        = Except.error PyError.networkError := by
  refine ⟨rfl, ?_, rfl⟩
  simp [init_trading_pair_ids, h]

/-- Witness for `C3_amended` at a concrete non-200 status. -/
theorem C3_amended_witness :
    (404 : Nat) ≠ 200
    ∧ ((init_trading_pair_ids [] (HttpResult.response 404 [])).1 = Except.ok ()
        ∧ (init_trading_pair_ids [] (HttpResult.response 404 [])).2 = []
        ∧ (init_trading_pair_ids [] HttpResult.networkFailure).1
            = Except.error PyError.networkError) :=
  ⟨by decide, C3_amended [] 404 [] (by decide)⟩

/-- Claim C4: after a refresh whose response is the single instrument
`{Product1Symbol: "BTC", Product2Symbol: "CAD", InstrumentId: 1}`,
resolving "BTC-CAD" yields instrument id 1 and resolving "ETH-CAD" fails
with the lookup-miss error (`KeyError`, the embedding of
`UnknownInstrumentError`); `resolve` is a pure function of the cached map
and performs no network I/O. -/
theorem C4_resolve_scenario :
    resolve (init_trading_pair_ids []
        (HttpResult.response 200 [⟨"BTC", "CAD", 1⟩])).2 "BTC-CAD"
      = Except.ok 1
    ∧ resolve (init_trading_pair_ids []
        (HttpResult.response 200 [⟨"BTC", "CAD", 1⟩])).2 "ETH-CAD"
      = Except.error (PyError.keyError "ETH-CAD") := by
  constructor <;> decide

theorem foldl_max_mem (x : Nat) (xs : List Nat) :
    xs.foldl Nat.max x ∈ x :: xs := by
  induction xs generalizing x with
  | nil => simp [List.foldl]
  | cons y ys ih =>
      simp only [List.foldl]
      rcases List.mem_cons.mp (ih (Nat.max x y)) with h1 | h1
      · have hxy : Nat.max x y = x ∨ Nat.max x y = y := by
          rcases Nat.le_total x y with hle | hle
          · exact Or.inr (Nat.max_eq_right hle)
          · exact Or.inl (Nat.max_eq_left hle)
        rcases hxy with hm | hm
        · exact List.mem_cons.mpr (Or.inl (h1.trans hm))
        · exact List.mem_cons.mpr (Or.inr (List.mem_cons.mpr (Or.inl (h1.trans hm))))
      · exact List.mem_cons.mpr (Or.inr (List.mem_cons.mpr (Or.inr h1)))

theorem base_le_foldl_max (x : Nat) (xs : List Nat) :
    x ≤ xs.foldl Nat.max x := by
  induction xs generalizing x with
  | nil => exact Nat.le_refl x
  | cons y ys ih =>
      simp only [List.foldl]
      exact Nat.le_trans (Nat.le_max_left x y) (ih (Nat.max x y))

theorem le_foldl_max (x : Nat) (xs : List Nat) (y : Nat) (h : y ∈ x :: xs) :
    y ≤ xs.foldl Nat.max x := by
  induction xs generalizing x with
  | nil =>
      simp at h
      simp [List.foldl, h]
  | cons z zs ih =>
      simp only [List.foldl]
      rcases List.mem_cons.mp h with rfl | h1
      · exact Nat.le_trans (Nat.le_max_left y z) (base_le_foldl_max _ zs)
      · rcases List.mem_cons.mp h1 with rfl | h2
        · exact Nat.le_trans (Nat.le_max_right x y) (base_le_foldl_max _ zs)
        · exact ih (Nat.max x z) (List.mem_cons.mpr (Or.inr h2))

theorem pyMax_spec (l : List Nat) (v : Nat) (h : pyMax l = .ok v) :
    v ∈ l ∧ ∀ y ∈ l, y ≤ v := by
  cases l with
  | nil => exact absurd h (by simp [pyMax])
  | cons x xs =>
      simp only [pyMax, Except.ok.injEq] at h
      subst h
      exact ⟨foldl_max_mem x xs, fun y hy => le_foldl_max x xs y hy⟩

theorem process_diff_frame_ok_some (msg : WsFrame) (m : OrderBookMessage)
    (h : process_diff_frame msg = .ok (some m)) :
    pyMax (List.map (fun e => e.actionDateTime) msg.o) = .ok m.updateId
    ∧ m.entries = msg.o
    ∧ (m.msgType = .snapshot ↔ msg.n = WS_ORDER_BOOK_CHANNEL)
    ∧ (m.msgType = .diff ↔ msg.n = WS_ORDER_BOOK_L2_UPDATE_EVENT) := by
  unfold process_diff_frame at h
  by_cases h1 : msg.n = WS_ORDER_BOOK_CHANNEL
  · rw [if_pos (Or.inl h1)] at h
    cases hmax : pyMax (List.map (fun e => e.actionDateTime) msg.o) with
    | error e => simp [hmax] at h
    | ok ts =>
        simp [hmax, h1] at h
        subst h
        refine ⟨rfl, rfl, ?_, ?_⟩
        · simp [h1, snapshot_message_from_exchange]
        · simp [h1, snapshot_message_from_exchange, WS_ORDER_BOOK_CHANNEL,
            WS_ORDER_BOOK_L2_UPDATE_EVENT]
  · by_cases h2 : msg.n = WS_ORDER_BOOK_L2_UPDATE_EVENT
    · rw [if_pos (Or.inr h2)] at h
      cases hmax : pyMax (List.map (fun e => e.actionDateTime) msg.o) with
      | error e => simp [hmax] at h
      | ok ts =>
          simp [hmax, h2, WS_ORDER_BOOK_CHANNEL,
            WS_ORDER_BOOK_L2_UPDATE_EVENT] at h
          subst h
          refine ⟨rfl, rfl, ?_, ?_⟩
          · simp [h2, diff_message_from_exchange, WS_ORDER_BOOK_CHANNEL,
              WS_ORDER_BOOK_L2_UPDATE_EVENT]
          · simp [h2, diff_message_from_exchange]
    · rw [if_neg (by tauto)] at h
      simp at h

/-- Claim C2: every message the diff listener emits — Snapshot- or
Diff-classified alike — carries the decoded batch as its entries, and its
`updateId` equals the maximum of the per-entry `actionDateTime` values over
that batch: it bounds every entry's timestamp and is attained by one of
them. -/
theorem C2_updateId_is_max_actionDateTime (msg : WsFrame) (m : OrderBookMessage)
    (h : process_diff_frame msg = .ok (some m)) :
    m.entries = msg.o
    ∧ (∀ e ∈ msg.o, e.actionDateTime ≤ m.updateId)
    ∧ (∃ e ∈ msg.o, e.actionDateTime = m.updateId) := by
  obtain ⟨hmax, hent, -, -⟩ := process_diff_frame_ok_some msg m h
  obtain ⟨hmem, hbound⟩ := pyMax_spec _ _ hmax
  simp only [List.mem_map] at hmem
  obtain ⟨e0, he0, he0eq⟩ := hmem
  refine ⟨hent, ?_, ⟨e0, he0, he0eq⟩⟩
  intro e he
  exact hbound e.actionDateTime (List.mem_map_of_mem _ he)

/-- Witness for `C2_updateId_is_max_actionDateTime` at a concrete
two-entry update frame. -/
theorem C2_witness :
    process_diff_frame ⟨"Level2UpdateEvent", [⟨0, 100, 2, 7⟩, ⟨1, 101, 3, 9⟩]⟩
        = .ok (some ⟨.diff, 9, [⟨0, 100, 2, 7⟩, ⟨1, 101, 3, 9⟩]⟩)
    ∧ ((⟨.diff, 9, [⟨0, 100, 2, 7⟩, ⟨1, 101, 3, 9⟩]⟩ : OrderBookMessage).entries
          = [⟨0, 100, 2, 7⟩, ⟨1, 101, 3, 9⟩]
        ∧ (∀ e ∈ [(⟨0, 100, 2, 7⟩ : NdaxOrderBookEntry), ⟨1, 101, 3, 9⟩],
            e.actionDateTime ≤ 9)
        ∧ (∃ e ∈ [(⟨0, 100, 2, 7⟩ : NdaxOrderBookEntry), ⟨1, 101, 3, 9⟩],
            e.actionDateTime = 9)) :=
  ⟨by decide,
   C2_updateId_is_max_actionDateTime
     ⟨"Level2UpdateEvent", [⟨0, 100, 2, 7⟩, ⟨1, 101, 3, 9⟩]⟩
     ⟨.diff, 9, [⟨0, 100, 2, 7⟩, ⟨1, 101, 3, 9⟩]⟩ (by decide)⟩

theorem pyMax_of_ne_nil (l : List Nat) (h : l ≠ []) : ∃ v, pyMax l = .ok v := by
  cases l with
  | nil => exact absurd rfl h
  | cons x xs => exact ⟨xs.foldl Nat.max x, rfl⟩

theorem process_diff_frame_channel (msg : WsFrame)
    (h1 : msg.n = WS_ORDER_BOOK_CHANNEL) (ts : Nat)
    (hmax : pyMax (List.map (fun e => e.actionDateTime) msg.o) = .ok ts) :
    process_diff_frame msg = .ok (some (snapshot_message_from_exchange msg.o ts)) := by
  unfold process_diff_frame
  rw [if_pos (Or.inl h1)]
  simp [hmax, h1]

theorem process_diff_frame_l2 (msg : WsFrame)
    (h2 : msg.n = WS_ORDER_BOOK_L2_UPDATE_EVENT) (ts : Nat)
    (hmax : pyMax (List.map (fun e => e.actionDateTime) msg.o) = .ok ts) :
    process_diff_frame msg = .ok (some (diff_message_from_exchange msg.o ts)) := by
  unfold process_diff_frame
  rw [if_pos (Or.inr h2)]
  simp [hmax, h2, WS_ORDER_BOOK_CHANNEL, WS_ORDER_BOOK_L2_UPDATE_EVENT]

/-- Claim C6 is FALSE as universally stated: the frame whose event name IS
the initial-state event `SubscribeLevel2` but whose payload decodes to an
empty batch produces a `ValueError` (from `max([])`) instead of an emitted
Snapshot message, so "emits a Snapshot exactly when the event name is
SubscribeLevel2" fails at this frame. -/
theorem C6_counterexample :
    (WsFrame.mk "SubscribeLevel2" []).n = WS_ORDER_BOOK_CHANNEL
    ∧ process_diff_frame ⟨"SubscribeLevel2", []⟩
        = .error (.valueError "max() arg is an empty sequence")
    ∧ (process_diff_frame ⟨"SubscribeLevel2", []⟩).isOk = false := by
  refine ⟨rfl, ?_, ?_⟩ <;> decide

/-- Claim C6, amended: for every inbound streaming frame whose payload
decodes to a NONEMPTY entry batch, the listener emits a Snapshot message
exactly when the event name is `SubscribeLevel2` and a Diff message exactly
when it is `Level2UpdateEvent`; and a frame with any other event name is
discarded without error UNCONDITIONALLY — whatever its payload, empty batch
included — since the `continue` at line 221 fires before the payload is
decoded. -/
theorem C6_amended_classification (msg : WsFrame) :
    (msg.o ≠ [] →
      ((∃ m, process_diff_frame msg = .ok (some m)
          ∧ m.msgType = OrderBookMessageType.snapshot)
        ↔ msg.n = WS_ORDER_BOOK_CHANNEL)
      ∧ ((∃ m, process_diff_frame msg = .ok (some m)
          ∧ m.msgType = OrderBookMessageType.diff)
        ↔ msg.n = WS_ORDER_BOOK_L2_UPDATE_EVENT))
    ∧ (msg.n ≠ WS_ORDER_BOOK_CHANNEL → msg.n ≠ WS_ORDER_BOOK_L2_UPDATE_EVENT →
        process_diff_frame msg = .ok none) := by
  constructor
  · intro h
    have hne : List.map (fun e => e.actionDateTime) msg.o ≠ [] := by
      intro hc
      exact h (List.map_eq_nil_iff.mp hc)
    obtain ⟨ts, hmax⟩ := pyMax_of_ne_nil _ hne
    constructor
    · constructor
      · rintro ⟨m, hm, hsnap⟩
        exact ((process_diff_frame_ok_some msg m hm).2.2.1).mp hsnap
      · intro h1
        exact ⟨snapshot_message_from_exchange msg.o ts,
          process_diff_frame_channel msg h1 ts hmax, rfl⟩
    · constructor
      · rintro ⟨m, hm, hdiff⟩
        exact ((process_diff_frame_ok_some msg m hm).2.2.2).mp hdiff
      · intro h2
        exact ⟨diff_message_from_exchange msg.o ts,
          process_diff_frame_l2 msg h2 ts hmax, rfl⟩
  · intro h1 h2
    unfold process_diff_frame
    rw [if_neg (by tauto)]

/-- Witness for `C6_amended_classification`: the classification part at a
concrete one-entry snapshot frame, and the unconditional discard part at a
concrete other-event-name frame with an EMPTY payload. -/
theorem C6_amended_witness :
    (((∃ m, process_diff_frame ⟨"SubscribeLevel2", [⟨0, 100, 2, 7⟩]⟩
            = .ok (some m) ∧ m.msgType = OrderBookMessageType.snapshot)
          ↔ (⟨"SubscribeLevel2", [⟨0, 100, 2, 7⟩]⟩ : WsFrame).n
              = WS_ORDER_BOOK_CHANNEL)
        ∧ ((∃ m, process_diff_frame ⟨"SubscribeLevel2", [⟨0, 100, 2, 7⟩]⟩
            = .ok (some m) ∧ m.msgType = OrderBookMessageType.diff)
          ↔ (⟨"SubscribeLevel2", [⟨0, 100, 2, 7⟩]⟩ : WsFrame).n
              = WS_ORDER_BOOK_L2_UPDATE_EVENT))
    ∧ process_diff_frame ⟨"Level1UpdateEvent", []⟩ = .ok none :=
  ⟨(C6_amended_classification ⟨"SubscribeLevel2", [⟨0, 100, 2, 7⟩]⟩).1
     (by decide),
   (C6_amended_classification ⟨"Level1UpdateEvent", []⟩).2
     (by decide) (by decide)⟩

/-- Claim C10: a relevant frame (initial-state or incremental-update event)
whose payload decodes to an empty batch makes the per-frame processing fail
with Python's `ValueError` from `max([])`, rather than emitting a message
with zero entries; consequently every message the listener emits carries at
least one entry. -/
theorem C10_empty_batch_fails (msg : WsFrame) :
    (msg.o = [] →
      (msg.n = WS_ORDER_BOOK_CHANNEL ∨ msg.n = WS_ORDER_BOOK_L2_UPDATE_EVENT) →
      process_diff_frame msg = .error (.valueError "max() arg is an empty sequence"))
    ∧ (∀ m, process_diff_frame msg = .ok (some m) → m.entries ≠ []) := by
  constructor
  · intro ho hrel
    unfold process_diff_frame
    rw [if_pos hrel]
    simp [ho, pyMax]
  · intro m hm hc
    obtain ⟨hmax, hent, -, -⟩ := process_diff_frame_ok_some msg m hm
    rw [hc] at hent
    rw [← hent] at hmax
    simp [pyMax] at hmax

/-- Witness for `C10_empty_batch_fails` at a concrete empty update frame. -/
theorem C10_witness :
    process_diff_frame ⟨"Level2UpdateEvent", []⟩
      = .error (.valueError "max() arg is an empty sequence") :=
  (C10_empty_batch_fails ⟨"Level2UpdateEvent", []⟩).1 rfl (Or.inr rfl)

/-- Claim C5: for a tracked pair, a non-200 snapshot response makes
`get_order_book_data` fail with a hard `IOError` whose message embeds both
the HTTP status and the response body (each appears as a segment of the
message), and the call never returns a success result. -/
theorem C5_non200_is_hard_error (idMap : TradingPairMap)
    (trading_pair : String) (instId : Int) (status : Nat) (respBody : String)
    (entries : List NdaxOrderBookEntry)
    (htracked : dictGet idMap trading_pair = some instId)
    (hstatus : status ≠ 200) :
    get_order_book_data idMap trading_pair status respBody entries
        = .error (.ioError (orderBookErrorMessage trading_pair status respBody))
    ∧ (∃ a b, orderBookErrorMessage trading_pair status respBody
        = a ++ toString status ++ b)
    ∧ (∃ c, orderBookErrorMessage trading_pair status respBody = c ++ respBody)
    ∧ (get_order_book_data idMap trading_pair status respBody entries).isOk
        = false := by
  have hres : get_order_book_data idMap trading_pair status respBody entries
      = .error (.ioError (orderBookErrorMessage trading_pair status respBody)) := by
    unfold get_order_book_data
    rw [htracked]
    rw [if_pos hstatus]
  refine ⟨hres, ?_, ?_, by rw [hres]; rfl⟩
  · refine ⟨"Error fetching OrderBook for " ++ trading_pair ++ " at "
      ++ ORDER_BOOK_URL ++ ". HTTP ", ". Response: " ++ respBody, ?_⟩
    unfold orderBookErrorMessage
    rw [String.append_assoc, String.append_assoc]
  · exact ⟨"Error fetching OrderBook for " ++ trading_pair ++ " at "
      ++ ORDER_BOOK_URL ++ ". HTTP " ++ toString status ++ ". Response: ", rfl⟩

/-- Witness for `C5_non200_is_hard_error` at a concrete HTTP 429 response. -/
theorem C5_witness :
    dictGet [("BTC-CAD", 1)] "BTC-CAD" = some 1
    ∧ (429 : Nat) ≠ 200
    ∧ (get_order_book_data [("BTC-CAD", 1)] "BTC-CAD" 429 "TOO MANY REQUESTS" []
          = .error (.ioError
              (orderBookErrorMessage "BTC-CAD" 429 "TOO MANY REQUESTS"))
        ∧ (∃ a b, orderBookErrorMessage "BTC-CAD" 429 "TOO MANY REQUESTS"
            = a ++ toString (429 : Nat) ++ b)
        ∧ (∃ c, orderBookErrorMessage "BTC-CAD" 429 "TOO MANY REQUESTS"
            = c ++ "TOO MANY REQUESTS")
        ∧ (get_order_book_data [("BTC-CAD", 1)] "BTC-CAD" 429
            "TOO MANY REQUESTS" []).isOk = false) :=
  ⟨by decide, by decide,
   C5_non200_is_hard_error [("BTC-CAD", 1)] "BTC-CAD" 1 429
     "TOO MANY REQUESTS" [] (by decide) (by decide)⟩

theorem snapshot_cycle_no_cancel (l : List (String × PairOutcome))
    (h : ∀ x ∈ l, x.2 ≠ PairOutcome.cancelled) :
    snapshot_cycle l = .ok (l.map pairAction) := by
  induction l with
  | nil => rfl
  | cons hd tl ih =>
      obtain ⟨pair, outcome⟩ := hd
      have htl : ∀ x ∈ tl, x.2 ≠ PairOutcome.cancelled := by
        intro x hx
        exact h x (List.mem_cons.mpr (Or.inr hx))
      have hhd : outcome ≠ PairOutcome.cancelled :=
        h (pair, outcome) (List.mem_cons.mpr (Or.inl rfl))
      cases outcome with
      | cancelled => exact absurd rfl hhd
      | ok => simp [snapshot_cycle, ih htl, pairAction, Except.map]
      | exn => simp [snapshot_cycle, ih htl, pairAction, Except.map]

/-- Claim C8: inside one snapshot cycle, a pair whose fetch/emit raises a
non-cancellation exception contributes a log-and-sleep-5 action, after which
the cycle continues: the whole cycle still completes without error and every
pair after the failing one is still processed (its action appears in the
cycle's trace). -/
theorem C8_per_pair_failure_does_not_abort
    (pre suf : List (String × PairOutcome)) (pair : String)
    (h : ∀ x ∈ pre ++ (pair, PairOutcome.exn) :: suf,
        x.2 ≠ PairOutcome.cancelled) :
    snapshot_cycle (pre ++ (pair, PairOutcome.exn) :: suf)
      = .ok (pre.map pairAction ++ LoopAction.logAndSleep 5 :: suf.map pairAction) := by
  rw [snapshot_cycle_no_cancel _ h]
  simp [pairAction]

/-- Witness for `C8_per_pair_failure_does_not_abort`: the middle pair of
three fails, the two others are still emitted. -/
theorem C8_witness :
    (∀ x ∈ ([("BTC-CAD", PairOutcome.ok)]
        ++ ("ETH-CAD", PairOutcome.exn) :: [("LTC-CAD", PairOutcome.ok)]),
      x.2 ≠ PairOutcome.cancelled)
    ∧ snapshot_cycle ([("BTC-CAD", PairOutcome.ok)]
        ++ ("ETH-CAD", PairOutcome.exn) :: [("LTC-CAD", PairOutcome.ok)])
      = .ok ([("BTC-CAD", PairOutcome.ok)].map pairAction
          ++ LoopAction.logAndSleep 5
            :: [("LTC-CAD", PairOutcome.ok)].map pairAction) :=
  ⟨by decide,
   C8_per_pair_failure_does_not_abort [("BTC-CAD", PairOutcome.ok)]
     [("LTC-CAD", PairOutcome.ok)] "ETH-CAD" (by decide)⟩

/-- Claim C7 is the code's intent but the code has a slip: cancellation does
propagate uncaught and a caught exception is followed by the bounded sleep
(5 s snapshot loop, 30 s diff loop) — BUT on the diff loop's very first
iteration, a failed connection attempt leaves `ws` unbound, so after the
30-second sleep the `finally` block's `await ws.close()` raises
`UnboundLocalError`, which escapes the `while True` loop: the loop body DOES
exit on a transient connection error, contradicting both the claim and the
code's own "Retrying in 30 seconds." log message. -/
theorem C7_diff_loop_first_connect_failure_escapes :
    snapshot_loop_step 3600 SnapshotIterResult.cancelled
        = LoopStepResult.propagate 0 PyError.cancelled
    ∧ snapshot_loop_step 3600 SnapshotIterResult.exn
        = LoopStepResult.continueAfter 5
    ∧ diff_loop_step true DiffIterEvent.cancelledInBody
        = (LoopStepResult.propagate 0 PyError.cancelled, true)
    ∧ diff_loop_step true DiffIterEvent.bodyError
        = (LoopStepResult.continueAfter 30, true)
    ∧ diff_loop_step true DiffIterEvent.connectFail
        = (LoopStepResult.continueAfter 30, true)
    ∧ diff_loop_step false DiffIterEvent.connectFail
        = (LoopStepResult.propagate 30 (PyError.unboundLocalError "ws"), false) := by
  refine ⟨rfl, rfl, rfl, rfl, ?_, ?_⟩ <;> rfl

/-- Claim C9: applying a Diff whose `updateId` is strictly below the state's
current `updateId` is a no-op — the returned state (both side maps and the
`updateId`) is the input state itself. -/
theorem C9_stale_diff_is_noop (st : OrderBookState) (msg : OrderBookMessage)
    (h : msg.updateId < st.updateId) :
    applyDiff st msg = st := by
  unfold applyDiff
  rw [if_pos h]

/-- Witness for `C9_stale_diff_is_noop`: scenario 3 of the spec — a stale
diff with `updateId = 5` against a state at `updateId = 10`. -/
theorem C9_witness :
    5 < 10
    ∧ applyDiff ⟨[(100, 2)], [(101, 3)], 10⟩
        ⟨.diff, 5, [⟨0, 100, 0, 5⟩]⟩
      = ⟨[(100, 2)], [(101, 3)], 10⟩ :=
  ⟨by decide,
   C9_stale_diff_is_noop ⟨[(100, 2)], [(101, 3)], 10⟩
     ⟨.diff, 5, [⟨0, 100, 0, 5⟩]⟩ (by decide)⟩

end Ndax
